import Mathlib

/-!
Verification of the Switch 2 bulk-USB transport
(`src/joystick/hidapi/SDL_hidapi_switch2_usb.h`).

The C code is shallowly embedded: each function becomes a pure Lean
function over an explicit context state, with the outcomes of external
calls (libusb, WinUSB, SetupDi) supplied as environment parameters.
Machine integers are modelled as `Nat`/`Int`; the one place where C
unsigned wrap-around is reachable in principle (`size -= transferred`
on a 32-bit unsigned remaining-size counter) is modelled with an
explicit `% 2^32`.
-/

/- ### Endpoint discovery (`Switch2_BulkUSB_FindEndpoints`) -/

/-- One `libusb_endpoint_descriptor`: the two fields the code reads. -/
structure EndpointDesc where
  bmAttributes : Nat
  bEndpointAddress : Nat
deriving DecidableEq, Repr

/-- One `libusb_interface_descriptor` (an alternate setting). -/
structure InterfaceAltsetting where
  bInterfaceNumber : Nat
  endpoint : List EndpointDesc
deriving DecidableEq, Repr

/-- One `libusb_interface`: its list of alternate settings
(`num_altsetting` is the list length). -/
structure LibusbInterface where
  altsetting : List InterfaceAltsetting
deriving DecidableEq, Repr

/-- A `libusb_config_descriptor`: its interface array
(`bNumInterfaces` is the list length). -/
structure ConfigDescriptor where
  iface : List LibusbInterface
deriving DecidableEq, Repr

def LIBUSB_TRANSFER_TYPE_MASK : Nat := 3
def LIBUSB_TRANSFER_TYPE_BULK : Nat := 2
def LIBUSB_ENDPOINT_DIR_MASK : Nat := 128
def LIBUSB_ENDPOINT_OUT : Nat := 0
def LIBUSB_ENDPOINT_IN : Nat := 128

/-- The values reachable through the three out-pointers of
`Switch2_BulkUSB_FindEndpoints`, plus the local accumulator `found`. -/
structure Scan where
  iface_num : Nat
  out_ep : Nat
  in_ep : Nat
  found : Nat
deriving DecidableEq, Repr

/-- Body of the innermost loop for one bulk endpoint `ep` of an
altsetting numbered `n`: `*iface_num = alt->bInterfaceNumber`, then the
two direction tests writing `*out_ep` / `*in_ep` and or-ing `found`. -/
def epStep (n : Nat) (st : Scan) (ep : EndpointDesc) : Scan :=
  let st1 : Scan := { st with iface_num := n }
  let st2 : Scan :=
    if ep.bEndpointAddress &&& LIBUSB_ENDPOINT_DIR_MASK = LIBUSB_ENDPOINT_OUT then
      { st1 with out_ep := ep.bEndpointAddress, found := st1.found ||| 1 }
    else st1
  if ep.bEndpointAddress &&& LIBUSB_ENDPOINT_DIR_MASK = LIBUSB_ENDPOINT_IN then
    { st2 with in_ep := ep.bEndpointAddress, found := st2.found ||| 2 }
  else st2

/-- Innermost loop (`for k`): scan the endpoints of one altsetting with
`bInterfaceNumber = n`.  Returns `true` (early `return true`) as soon
as `found == 3`, else `false` with the state after the loop. -/
def scanEndpoints (n : Nat) : Scan → List EndpointDesc → Bool × Scan
  | st, [] => (false, st)
  | st, ep :: rest =>
    if ep.bmAttributes &&& LIBUSB_TRANSFER_TYPE_MASK = LIBUSB_TRANSFER_TYPE_BULK then
      let st' := epStep n st ep
      if st'.found = 3 then (true, st') else scanEndpoints n st' rest
    else scanEndpoints n st rest

/-- Middle loop (`for j`): scan the alternate settings of one
interface, entering the endpoint loop only when
`alt->bInterfaceNumber == 1`. -/
def scanAltsettings : Scan → List InterfaceAltsetting → Bool × Scan
  | st, [] => (false, st)
  | st, alt :: rest =>
    if alt.bInterfaceNumber = 1 then
      let r := scanEndpoints alt.bInterfaceNumber st alt.endpoint
      if r.1 then r else scanAltsettings r.2 rest
    else scanAltsettings st rest

/-- Outer loop (`for i`) over `config->interface`. -/
def scanInterfaces : Scan → List LibusbInterface → Bool × Scan
  | st, [] => (false, st)
  | st, ifc :: rest =>
    let r := scanAltsettings st ifc.altsetting
    if r.1 then r else scanInterfaces r.2 rest

/-- Function `Switch2_BulkUSB_FindEndpoints`: `getConfigOk` is the outcome of
`libusb->get_config_descriptor` (`false` models a non-zero return, in
which case the function returns `false` at once); `iface_num`,
`out_ep`, `in_ep` are the values behind the out-pointers on entry.
`found` starts at 0.  The returned `Scan` holds the pointer targets on
exit. -/
def Switch2_BulkUSB_FindEndpoints (getConfigOk : Bool) (config : ConfigDescriptor)
    (iface_num out_ep in_ep : Nat) : Bool × Scan :=
  let st : Scan := ⟨iface_num, out_ep, in_ep, 0⟩
  if getConfigOk then scanInterfaces st config.iface else (false, st)

/-- The endpoints the scan actually examines, flattened in scan order:
all endpoints of altsettings whose `bInterfaceNumber` is 1. -/
def iface1Endpoints (config : ConfigDescriptor) : List EndpointDesc :=
  ((config.iface.flatMap (·.altsetting)).filter
    (fun a => a.bInterfaceNumber == 1)).flatMap (·.endpoint)

/-- Whether an endpoint descriptor declares a bulk endpoint. -/
def isBulkEndpoint (ep : EndpointDesc) : Bool :=
  ep.bmAttributes &&& LIBUSB_TRANSFER_TYPE_MASK == LIBUSB_TRANSFER_TYPE_BULK

/-- The bulk endpoints of interface number 1, in scan order. -/
def bulkEndpoints (config : ConfigDescriptor) : List EndpointDesc :=
  (iface1Endpoints config).filter isBulkEndpoint

/- ### Read loops -/

/-- Outcome of one `libusb->bulk_transfer` call on the IN endpoint:
the function's return value `res` and the count written through the
`transferred` out-parameter (a non-negative byte count). -/
structure LibusbXfer where
  res : Int
  transferred : Nat
deriving DecidableEq, Repr

/-- The per-iteration chunk, `(size > 64) ? 64 : size`. -/
def chunkOf (size : Nat) : Nat := if size > 64 then 64 else size

/-- Function `Switch2_BulkUSB_Read`, libusb path (the non-WinUSB branch of the
dispatcher).  `resps` supplies the outcome of each successive
`bulk_transfer` call; `size` is the 32-bit unsigned remaining size,
`total` the accumulator (0 at the real entry point).  Returns the C
return value (`none` if the loop would run more iterations than
`resps` provides) together with the trace of chunk sizes requested
from the device.  `size -= transferred` is 32-bit unsigned
arithmetic, hence the `% 2^32`. -/
def Switch2_BulkUSB_Read : List LibusbXfer → Nat → Nat → Option Int × List Nat
  | _, 0, total => (some (Int.ofNat total), [])
  | [], _ + 1, _ => (none, [])
  | r :: rest, n + 1, total =>
    let size := n + 1
    let chunk := chunkOf size
    if r.res < 0 then (some r.res, [chunk])
    else
      let total' := total + r.transferred
      let size' := (size + 2 ^ 32 - r.transferred) % 2 ^ 32
      if r.transferred < chunk then (some (Int.ofNat total'), [chunk])
      else
        let next := Switch2_BulkUSB_Read rest size' total'
        (next.1, chunk :: next.2)

/-- Outcome of one iteration of the WinUSB read loop, as seen at its
branch points: `CreateEventW` failure; `WinUsb_ReadPipe` returning
`TRUE` synchronously with a transfer count; `ERROR_IO_PENDING`
followed by a signalled wait (count from
`WinUsb_GetOverlappedResult`); `ERROR_IO_PENDING` followed by a wait
timeout; or a `ReadPipe` failure other than `ERROR_IO_PENDING`. -/
inductive WinUSBReadEvt where
  | eventFail
  | syncOk (transferred : Nat)
  | pendingOk (transferred : Nat)
  | pendingTimeout
  | pendingError
deriving DecidableEq, Repr

/-- Function `Switch2_BulkUSB_WinUSB_Read`: same shape as the libusb loop but
with the WinUSB per-iteration outcomes; on timeout or error it returns
`(total > 0) ? total : sentinel` instead of the raw error. -/
def Switch2_BulkUSB_WinUSB_Read : List WinUSBReadEvt → Nat → Nat → Option Int × List Nat
  | _, 0, total => (some (Int.ofNat total), [])
  | [], _ + 1, _ => (none, [])
  | e :: rest, n + 1, total =>
    let size := n + 1
    let chunk := chunkOf size
    match e with
    | .eventFail => (some (if total > 0 then Int.ofNat total else -1), [])
    | .pendingTimeout => (some (if total > 0 then Int.ofNat total else -7), [chunk])
    | .pendingError => (some (if total > 0 then Int.ofNat total else -1), [chunk])
    | .syncOk t | .pendingOk t =>
      let total' := total + t
      let size' := (size + 2 ^ 32 - t) % 2 ^ 32
      if t < chunk then (some (Int.ofNat total'), [chunk])
      else
        let next := Switch2_BulkUSB_WinUSB_Read rest size' total'
        (next.1, chunk :: next.2)

/-- Per-chunk validity of a response sequence against a starting
remaining size: every iteration's transferred count is at most the
chunk it requested, and the transfer succeeded (`res ≥ 0`). -/
def okChunks : Nat → List LibusbXfer → Bool
  | _, [] => true
  | size, r :: rest =>
    (0 ≤ r.res) && (r.transferred ≤ chunkOf size) &&
      okChunks ((size + 2 ^ 32 - r.transferred) % 2 ^ 32) rest

/-- Per-chunk validity for the WinUSB loop: every iteration completes
successfully with a count at most its chunk. -/
def okEvts : Nat → List WinUSBReadEvt → Bool
  | _, [] => true
  | size, e :: rest =>
    match e with
    | .syncOk t | .pendingOk t =>
      (t ≤ chunkOf size) && okEvts ((size + 2 ^ 32 - t) % 2 ^ 32) rest
    | _ => false

/- ### Write paths -/

/-- Function `Switch2_BulkUSB_Write`, libusb path: one `bulk_transfer` on the
OUT endpoint with the caller's timeout; `res` and `transferred` are
its outcome.  `(res < 0) ? res : transferred`. -/
def Switch2_BulkUSB_Write (res : Int) (transferred : Int) : Int :=
  if res < 0 then res else transferred

/-- libusb's own error codes (from `libusb.h`, an external
collaborator): the timeout code propagated unchanged by the generic
write path, and the generic I/O error code. -/
def LIBUSB_ERROR_TIMEOUT : Int := -7
def LIBUSB_ERROR_IO : Int := -1

/-- Outcome of one `Switch2_BulkUSB_WinUSB_Write` call at its branch
points: `CreateEventW` failure; `WinUsb_WritePipe` returning `TRUE`
synchronously; `ERROR_IO_PENDING` then a signalled wait within
`timeout_ms`; `ERROR_IO_PENDING` then a wait timeout; or a `WritePipe`
failure other than `ERROR_IO_PENDING`. -/
inductive WinUSBWriteEvt where
  | eventFail
  | syncOk (transferred : Nat)
  | pendingOk (transferred : Nat)
  | pendingTimeout
  | pendingError
deriving DecidableEq, Repr

/-- Result of the WinUSB write: the C return value plus whether
`WinUsb_AbortPipe` was issued on the out pipe before returning. -/
structure WinUSBWriteResult where
  ret : Int
  abortedPipe : Bool
deriving DecidableEq, Repr

/-- Function `Switch2_BulkUSB_WinUSB_Write`. -/
def Switch2_BulkUSB_WinUSB_Write : WinUSBWriteEvt → WinUSBWriteResult
  | .eventFail => ⟨-1, false⟩
  | .syncOk t => ⟨Int.ofNat t, false⟩
  | .pendingOk t => ⟨Int.ofNat t, false⟩
  | .pendingTimeout => ⟨-7, true⟩
  | .pendingError => ⟨-1, false⟩

/- ### Transport context, `Open` and `Close` -/

/-- The `Switch2_BulkUSB` struct.  Pointer/handle fields are modelled
by whether they are non-null. -/
structure BulkCtx where
  libusb : Bool
  device_handle : Bool
  owns_device_handle : Bool
  libusb_ctx : Bool
  interface_claimed : Bool
  interface_number : Nat
  out_endpoint : Nat
  in_endpoint : Nat
  winusb_file_handle : Bool
  winusb_handle : Bool
  winusb_out_pipe : Nat
  winusb_in_pipe : Nat
  use_winusb : Bool
deriving DecidableEq, Repr

/-- The zero-initialized context the caller hands to `Open`. -/
def zeroCtx : BulkCtx :=
  ⟨false, false, false, false, false, 0, 0, 0, false, false, 0, 0, false⟩

/-- Release operations `Switch2_BulkUSB_Close` can perform, in the
order they appear in the code. -/
inductive CloseAct where
  | winusbFree
  | winusbCloseFile
  | releaseInterface
  | closeDevice
  | exitCtx
  | quitLibUSB
deriving DecidableEq, Repr

/-- Function `Switch2_BulkUSB_CloseWinUSB`: free the WinUSB interface handle if
set, close the file handle if set, clear `use_winusb`. -/
def Switch2_BulkUSB_CloseWinUSB (st : BulkCtx) : BulkCtx × List CloseAct :=
  let p1 : BulkCtx × List CloseAct :=
    if st.winusb_handle then ({ st with winusb_handle := false }, [.winusbFree]) else (st, [])
  let p2 : BulkCtx × List CloseAct :=
    if p1.1.winusb_file_handle then
      ({ p1.1 with winusb_file_handle := false }, p1.2 ++ [.winusbCloseFile])
    else p1
  ({ p2.1 with use_winusb := false }, p2.2)

/-- Function `Switch2_BulkUSB_Close`: WinUSB teardown first if `use_winusb`,
then the four guarded libusb release steps. -/
def Switch2_BulkUSB_Close (st : BulkCtx) : BulkCtx × List CloseAct :=
  let p0 : BulkCtx × List CloseAct :=
    if st.use_winusb then Switch2_BulkUSB_CloseWinUSB st else (st, [])
  let p1 : BulkCtx × List CloseAct :=
    if p0.1.interface_claimed && p0.1.libusb then
      ({ p0.1 with interface_claimed := false }, p0.2 ++ [.releaseInterface])
    else p0
  let p2 : BulkCtx × List CloseAct :=
    if p1.1.owns_device_handle && p1.1.device_handle && p1.1.libusb then
      ({ p1.1 with device_handle := false }, p1.2 ++ [.closeDevice])
    else p1
  let p3 : BulkCtx × List CloseAct :=
    if p2.1.libusb_ctx && p2.1.libusb then
      ({ p2.1 with libusb_ctx := false }, p2.2 ++ [.exitCtx])
    else p2
  if p3.1.libusb then ({ p3.1 with libusb := false }, p3.2 ++ [.quitLibUSB]) else p3

/-- Pipe identifiers recorded by a successful
`Switch2_BulkUSB_OpenWinUSB`. -/
structure WinUSBPipes where
  outPipe : Nat
  inPipe : Nat
deriving DecidableEq, Repr

/-- Outcomes of the external calls `Switch2_BulkUSB_Open` makes, in
program order: the WinUSB attempt (`some` = the SetupDi/WinUSB
enumeration found and initialized a device, yielding its pipes),
`SDL_InitLibUSB`, whether the HID property lookup yields a shared
libusb handle, whether `libusb->init` of a private context returns 0,
whether the device enumeration finds a vid/pid match that opens,
whether `get_config_descriptor` returns 0 (and the descriptor), and
the `claim_interface` return code. -/
structure OpenEnv where
  winusb : Option WinUSBPipes
  initLibUSBOk : Bool
  sharedHandle : Bool
  usbCtxInitOk : Bool
  openMatchOk : Bool
  getConfigOk : Bool
  config : ConfigDescriptor
  claimRes : Int
deriving DecidableEq, Repr

/-- Externally visible actions of `Open`: the WinUSB flush (which
issues pipe resets and bulk IN reads), `set_auto_detach_kernel_driver`
and `claim_interface`.  These are the only calls in `Open` that touch
the claimed state or move bulk data. -/
inductive OpenAct where
  | flushWinUSB
  | autoDetach
  | claimInterface
deriving DecidableEq, Repr

/-- Function `Switch2_BulkUSB_Open` (as compiled for Win32; on other platforms
the WinUSB attempt is absent, i.e. `env.winusb = none`).  Returns the
C result, the context state on return, and the trace of `OpenAct`s. -/
def Switch2_BulkUSB_Open (bulk : BulkCtx) (env : OpenEnv) : Bool × BulkCtx × List OpenAct :=
  match env.winusb with
  | some p =>
    (true,
     { bulk with winusb_file_handle := true, winusb_handle := true,
                 winusb_out_pipe := p.outPipe, winusb_in_pipe := p.inPipe,
                 use_winusb := true },
     [.flushWinUSB])
  | none =>
    if env.initLibUSBOk then
      let b1 : BulkCtx := { bulk with libusb := true, device_handle := env.sharedHandle }
      let b2 : BulkCtx :=
        if !b1.device_handle then
          if env.usbCtxInitOk && env.openMatchOk then
            { b1 with device_handle := true, owns_device_handle := true, libusb_ctx := true }
          else b1
        else b1
      if !b2.device_handle then
        (false, { b2 with libusb := false }, [])
      else
        let fe := Switch2_BulkUSB_FindEndpoints env.getConfigOk env.config
                    b2.interface_number b2.out_endpoint b2.in_endpoint
        let b3 : BulkCtx := { b2 with interface_number := fe.2.iface_num,
                                      out_endpoint := fe.2.out_ep,
                                      in_endpoint := fe.2.in_ep }
        if !fe.1 then
          (false, b3, [])
        else if env.claimRes < 0 then
          (false, b3, [.autoDetach, .claimInterface])
        else
          (true, { b3 with interface_claimed := true }, [.autoDetach, .claimInterface])
    else
      (false, bulk, [])

/- ### Concrete inputs used by witnesses and counterexamples -/

/-- A sample configuration for the discovery witness: interface 0 with
an interrupt IN endpoint, then interface 1 carrying an interrupt
endpoint, a bulk OUT endpoint 0x01 and a bulk IN endpoint 0x81. -/
def sampleConfig : ConfigDescriptor :=
  ⟨[⟨[⟨0, [⟨3, 129⟩]⟩]⟩,
    ⟨[⟨1, [⟨3, 130⟩, ⟨2, 1⟩, ⟨2, 129⟩]⟩]⟩]⟩

/-- A context as left by a successful generic-path `Open` that had to
open its own libusb connection. -/
def openedCtx : BulkCtx :=
  ⟨true, true, true, true, true, 1, 1, 129, false, false, 0, 0, false⟩

/-- Environment for the C5 counterexample: generic path (no WinUSB),
libusb initializes, the HID stack shares its device handle, but the
configuration descriptor has no interfaces at all, so endpoint
discovery fails. -/
def c5Env : OpenEnv := ⟨none, true, true, false, false, true, ⟨[]⟩, 0⟩

/-- Environment for the C5 counterexample, private-connection variant:
no shared handle, so `Open` opens its own libusb context and device
handle, and then endpoint discovery fails on the empty descriptor. -/
def c5EnvOwn : OpenEnv := ⟨none, true, false, true, true, true, ⟨[]⟩, 0⟩

/-- Environment for the C5 counterexample, claim-failure variant: the
shared handle is available, discovery succeeds on `sampleConfig`, but
`claim_interface` returns an error. -/
def c5EnvClaim : OpenEnv := ⟨none, true, true, false, false, true, sampleConfig, -1⟩

/-- Environment for the C6 witness: the shared handle is available but
interface 1 exposes only a bulk OUT endpoint, no bulk IN. -/
def c6Env : OpenEnv := ⟨none, true, true, false, false, true, ⟨[⟨[⟨1, [⟨2, 1⟩]⟩]⟩]⟩, 0⟩

/- ### Lemmas about the descriptor scan -/

theorem scanEndpoints_append (n : Nat) (st : Scan) (l₁ l₂ : List EndpointDesc) :
    scanEndpoints n st (l₁ ++ l₂) =
      (if (scanEndpoints n st l₁).1 then scanEndpoints n st l₁
       else scanEndpoints n (scanEndpoints n st l₁).2 l₂) := by
  induction l₁ generalizing st with
  | nil => simp [scanEndpoints]
  | cons ep rest ih =>
    simp only [List.cons_append, scanEndpoints]
    by_cases hb : ep.bmAttributes &&& LIBUSB_TRANSFER_TYPE_MASK = LIBUSB_TRANSFER_TYPE_BULK
    · simp only [hb, if_true]
      by_cases hf : (epStep n st ep).found = 3
      · simp [hf]
      · simp [hf, ih]
    · simp [hb, ih]

theorem scanEndpoints_filter (n : Nat) (st : Scan) (l : List EndpointDesc) :
    scanEndpoints n st l = scanEndpoints n st (l.filter isBulkEndpoint) := by
  induction l generalizing st with
  | nil => simp
  | cons ep rest ih =>
    by_cases hb : ep.bmAttributes &&& LIBUSB_TRANSFER_TYPE_MASK = LIBUSB_TRANSFER_TYPE_BULK
    · have hbulk : isBulkEndpoint ep = true := by
        simp [isBulkEndpoint, hb]
      simp only [List.filter_cons, hbulk, if_true, scanEndpoints, hb]
      by_cases hf : (epStep n st ep).found = 3
      · simp [hf]
      · simp [hf, ih]
    · have hbulk : isBulkEndpoint ep = false := by
        simp [isBulkEndpoint, hb]
      simp only [List.filter_cons, hbulk, scanEndpoints, hb]
      simp [hb, ih]

theorem scanAltsettings_flat (st : Scan) (alts : List InterfaceAltsetting) :
    scanAltsettings st alts =
      scanEndpoints 1 st
        ((alts.filter (fun a => a.bInterfaceNumber == 1)).flatMap (·.endpoint)) := by
  induction alts generalizing st with
  | nil => simp [scanAltsettings, scanEndpoints]
  | cons alt rest ih =>
    by_cases h1 : alt.bInterfaceNumber = 1
    · simp [scanAltsettings, h1, List.filter_cons, List.flatMap_cons,
        scanEndpoints_append, ih]
    · simp [scanAltsettings, h1, List.filter_cons, ih]

theorem scanInterfaces_flat (st : Scan) (ifaces : List LibusbInterface) :
    scanInterfaces st ifaces =
      scanEndpoints 1 st
        (((ifaces.flatMap (·.altsetting)).filter
            (fun a => a.bInterfaceNumber == 1)).flatMap (·.endpoint)) := by
  induction ifaces generalizing st with
  | nil => simp [scanInterfaces, scanEndpoints]
  | cons ifc rest ih =>
    simp only [scanInterfaces, scanAltsettings_flat, ih, List.flatMap_cons,
      List.filter_append, List.flatMap_append, scanEndpoints_append]

/-- The whole scan is the flat scan of the bulk endpoints of
interface 1. -/
theorem scanInterfaces_bulk (st : Scan) (config : ConfigDescriptor) :
    scanInterfaces st config.iface = scanEndpoints 1 st (bulkEndpoints config) := by
  rw [scanInterfaces_flat, bulkEndpoints, iface1Endpoints, ← scanEndpoints_filter]

theorem scanEndpoints_pair_out_in (st : Scan) (a b : EndpointDesc)
    (hst : st.found = 0)
    (hab : isBulkEndpoint a = true) (hbb : isBulkEndpoint b = true)
    (ha : a.bEndpointAddress &&& LIBUSB_ENDPOINT_DIR_MASK = LIBUSB_ENDPOINT_OUT)
    (hb : b.bEndpointAddress &&& LIBUSB_ENDPOINT_DIR_MASK = LIBUSB_ENDPOINT_IN) :
    scanEndpoints 1 st [a, b] =
      (true, ⟨1, a.bEndpointAddress, b.bEndpointAddress, 3⟩) := by
  simp only [isBulkEndpoint, beq_iff_eq] at hab hbb
  simp only [LIBUSB_ENDPOINT_DIR_MASK, LIBUSB_ENDPOINT_OUT, LIBUSB_ENDPOINT_IN,
    LIBUSB_TRANSFER_TYPE_MASK, LIBUSB_TRANSFER_TYPE_BULK] at ha hb hab hbb
  simp [scanEndpoints, epStep, hab, hbb, ha, hb, hst,
    LIBUSB_ENDPOINT_DIR_MASK, LIBUSB_ENDPOINT_OUT, LIBUSB_ENDPOINT_IN,
    LIBUSB_TRANSFER_TYPE_MASK, LIBUSB_TRANSFER_TYPE_BULK]

theorem scanEndpoints_pair_in_out (st : Scan) (a b : EndpointDesc)
    (hst : st.found = 0)
    (hab : isBulkEndpoint a = true) (hbb : isBulkEndpoint b = true)
    (ha : a.bEndpointAddress &&& LIBUSB_ENDPOINT_DIR_MASK = LIBUSB_ENDPOINT_IN)
    (hb : b.bEndpointAddress &&& LIBUSB_ENDPOINT_DIR_MASK = LIBUSB_ENDPOINT_OUT) :
    scanEndpoints 1 st [a, b] =
      (true, ⟨1, b.bEndpointAddress, a.bEndpointAddress, 3⟩) := by
  simp only [isBulkEndpoint, beq_iff_eq] at hab hbb
  simp only [LIBUSB_ENDPOINT_DIR_MASK, LIBUSB_ENDPOINT_OUT, LIBUSB_ENDPOINT_IN,
    LIBUSB_TRANSFER_TYPE_MASK, LIBUSB_TRANSFER_TYPE_BULK] at ha hb hab hbb
  simp [scanEndpoints, epStep, hab, hbb, ha, hb, hst,
    LIBUSB_ENDPOINT_DIR_MASK, LIBUSB_ENDPOINT_OUT, LIBUSB_ENDPOINT_IN,
    LIBUSB_TRANSFER_TYPE_MASK, LIBUSB_TRANSFER_TYPE_BULK]

theorem scanEndpoints_no_out (l : List EndpointDesc) (st : Scan)
    (h : ∀ ep ∈ l, ¬(ep.bEndpointAddress &&& LIBUSB_ENDPOINT_DIR_MASK = LIBUSB_ENDPOINT_OUT))
    (hf : st.found = 0 ∨ st.found = 2) :
    (scanEndpoints 1 st l).1 = false := by
  induction l generalizing st with
  | nil => simp [scanEndpoints]
  | cons ep rest ih =>
    have hep := h ep (by simp)
    have hrest : ∀ e ∈ rest,
        ¬(e.bEndpointAddress &&& LIBUSB_ENDPOINT_DIR_MASK = LIBUSB_ENDPOINT_OUT) :=
      fun e he => h e (by simp [he])
    by_cases hbulk : ep.bmAttributes &&& LIBUSB_TRANSFER_TYPE_MASK = LIBUSB_TRANSFER_TYPE_BULK
    · by_cases hin : ep.bEndpointAddress &&& LIBUSB_ENDPOINT_DIR_MASK = LIBUSB_ENDPOINT_IN
      · have hstep : (epStep 1 st ep).found = 2 := by
          simp only [LIBUSB_ENDPOINT_DIR_MASK, LIBUSB_ENDPOINT_OUT,
            LIBUSB_ENDPOINT_IN] at hin
          rcases hf with hv | hv <;>
            simp [epStep, hin, hv, LIBUSB_ENDPOINT_DIR_MASK, LIBUSB_ENDPOINT_OUT,
              LIBUSB_ENDPOINT_IN]
        have h3 : ¬((epStep 1 st ep).found = 3) := by rw [hstep]; omega
        simp only [scanEndpoints, hbulk, if_true, h3, if_false]
        exact ih (epStep 1 st ep) hrest (Or.inr hstep)
      · have hstep : epStep 1 st ep = { st with iface_num := 1 } := by
          simp [epStep, hep, hin]
        have h3 : ¬((epStep 1 st ep).found = 3) := by
          rw [hstep]; rcases hf with hv | hv <;> simp [hv]
        simp only [scanEndpoints, hbulk, if_true, h3, if_false]
        rw [hstep]
        exact ih _ hrest hf
    · simp only [scanEndpoints, hbulk, if_false]
      exact ih _ hrest hf

theorem scanEndpoints_no_in (l : List EndpointDesc) (st : Scan)
    (h : ∀ ep ∈ l, ¬(ep.bEndpointAddress &&& LIBUSB_ENDPOINT_DIR_MASK = LIBUSB_ENDPOINT_IN))
    (hf : st.found = 0 ∨ st.found = 1) :
    (scanEndpoints 1 st l).1 = false := by
  induction l generalizing st with
  | nil => simp [scanEndpoints]
  | cons ep rest ih =>
    have hep := h ep (by simp)
    have hrest : ∀ e ∈ rest,
        ¬(e.bEndpointAddress &&& LIBUSB_ENDPOINT_DIR_MASK = LIBUSB_ENDPOINT_IN) :=
      fun e he => h e (by simp [he])
    by_cases hbulk : ep.bmAttributes &&& LIBUSB_TRANSFER_TYPE_MASK = LIBUSB_TRANSFER_TYPE_BULK
    · by_cases hout : ep.bEndpointAddress &&& LIBUSB_ENDPOINT_DIR_MASK = LIBUSB_ENDPOINT_OUT
      · have hstep : (epStep 1 st ep).found = 1 := by
          simp only [LIBUSB_ENDPOINT_DIR_MASK, LIBUSB_ENDPOINT_OUT,
            LIBUSB_ENDPOINT_IN] at hout
          rcases hf with hv | hv <;>
            simp [epStep, hout, hv, LIBUSB_ENDPOINT_DIR_MASK, LIBUSB_ENDPOINT_OUT,
              LIBUSB_ENDPOINT_IN]
        have h3 : ¬((epStep 1 st ep).found = 3) := by rw [hstep]; omega
        simp only [scanEndpoints, hbulk, if_true, h3, if_false]
        exact ih (epStep 1 st ep) hrest (Or.inr hstep)
      · have hstep : epStep 1 st ep = { st with iface_num := 1 } := by
          simp [epStep, hep, hout]
        have h3 : ¬((epStep 1 st ep).found = 3) := by
          rw [hstep]; rcases hf with hv | hv <;> simp [hv]
        simp only [scanEndpoints, hbulk, if_true, h3, if_false]
        rw [hstep]
        exact ih _ hrest hf
    · simp only [scanEndpoints, hbulk, if_false]
      exact ih _ hrest hf

/-- Claim C1: for every configuration descriptor whose interface
number 1 carries exactly one bulk endpoint with direction bit OUT and
exactly one with direction bit IN (in either order, possibly among
non-bulk endpoints and other interface numbers),
`Switch2_BulkUSB_FindEndpoints` returns `true` and stores exactly the
OUT address in `*out_ep` and the IN address in `*in_ep` (and 1 in
`*iface_num`), ignoring all other endpoints; and for every descriptor
whose interface 1 lacks a bulk endpoint of either direction, it
returns `false`. -/
theorem c1_find_endpoints (config : ConfigDescriptor) (ifn oep iep : Nat)
    (a b : EndpointDesc) :
    (bulkEndpoints config = [a, b] →
      ((a.bEndpointAddress &&& LIBUSB_ENDPOINT_DIR_MASK = LIBUSB_ENDPOINT_OUT →
        b.bEndpointAddress &&& LIBUSB_ENDPOINT_DIR_MASK = LIBUSB_ENDPOINT_IN →
        Switch2_BulkUSB_FindEndpoints true config ifn oep iep =
          (true, ⟨1, a.bEndpointAddress, b.bEndpointAddress, 3⟩)) ∧
       (a.bEndpointAddress &&& LIBUSB_ENDPOINT_DIR_MASK = LIBUSB_ENDPOINT_IN →
        b.bEndpointAddress &&& LIBUSB_ENDPOINT_DIR_MASK = LIBUSB_ENDPOINT_OUT →
        Switch2_BulkUSB_FindEndpoints true config ifn oep iep =
          (true, ⟨1, b.bEndpointAddress, a.bEndpointAddress, 3⟩)))) ∧
    (((∀ ep ∈ bulkEndpoints config,
        ¬(ep.bEndpointAddress &&& LIBUSB_ENDPOINT_DIR_MASK = LIBUSB_ENDPOINT_OUT)) ∨
      (∀ ep ∈ bulkEndpoints config,
        ¬(ep.bEndpointAddress &&& LIBUSB_ENDPOINT_DIR_MASK = LIBUSB_ENDPOINT_IN))) →
      (Switch2_BulkUSB_FindEndpoints true config ifn oep iep).1 = false) := by
  have hunfold : Switch2_BulkUSB_FindEndpoints true config ifn oep iep =
      scanEndpoints 1 ⟨ifn, oep, iep, 0⟩ (bulkEndpoints config) := by
    rw [Switch2_BulkUSB_FindEndpoints]
    simp only [if_true]
    exact scanInterfaces_bulk _ _
  constructor
  · intro hpair
    have ha : a ∈ bulkEndpoints config := by rw [hpair]; simp
    have hb : b ∈ bulkEndpoints config := by rw [hpair]; simp
    have hab : isBulkEndpoint a = true := (List.mem_filter.mp ha).2
    have hbb : isBulkEndpoint b = true := (List.mem_filter.mp hb).2
    constructor
    · intro haOut hbIn
      rw [hunfold, hpair]
      exact scanEndpoints_pair_out_in _ a b rfl hab hbb haOut hbIn
    · intro haIn hbOut
      rw [hunfold, hpair]
      exact scanEndpoints_pair_in_out _ a b rfl hab hbb haIn hbOut
  · intro hmiss
    rw [hunfold]
    rcases hmiss with hno | hno
    · exact scanEndpoints_no_out _ _ hno (Or.inl rfl)
    · exact scanEndpoints_no_in _ _ hno (Or.inl rfl)

/-- Witness for C1 at `sampleConfig`: the bulk pair of interface 1 is
(OUT 0x01, IN 0x81) and discovery finds exactly it. -/
theorem c1_find_endpoints_witness :
    bulkEndpoints sampleConfig = [⟨2, 1⟩, ⟨2, 129⟩] ∧
    Switch2_BulkUSB_FindEndpoints true sampleConfig 0 0 0 = (true, ⟨1, 1, 129, 3⟩) :=
  ⟨by decide,
   ((c1_find_endpoints sampleConfig 0 0 0 ⟨2, 1⟩ ⟨2, 129⟩).1 (by decide)).1
     (by decide) (by decide)⟩

/- ### Lemmas about the read loops -/

theorem chunkOf_le_64 (size : Nat) : chunkOf size ≤ 64 := by
  unfold chunkOf; split <;> omega

theorem chunkOf_le_size (size : Nat) : chunkOf size ≤ size := by
  unfold chunkOf; split <;> omega

theorem chunkOf_pos (size : Nat) (h : 0 < size) : 0 < chunkOf size := by
  unfold chunkOf; split <;> omega

/-- The 32-bit unsigned `size -= transferred` does not wrap when
`transferred ≤ size < 2^32`. -/
theorem sub_wrap_eq (size t : Nat) (h1 : t ≤ size) (h2 : size < 2 ^ 32) :
    (size + 2 ^ 32 - t) % 2 ^ 32 = size - t := by
  have h3 : size + 2 ^ 32 - t = (size - t) + 2 ^ 32 := by omega
  rw [h3, Nat.add_mod_right]
  exact Nat.mod_eq_of_lt (by omega)

theorem read_trace_le (resps : List LibusbXfer) (size total : Nat) :
    ∀ c ∈ (Switch2_BulkUSB_Read resps size total).2, c ≤ 64 := by
  induction resps generalizing size total with
  | nil => cases size <;> simp [Switch2_BulkUSB_Read]
  | cons r rest ih =>
    cases size with
    | zero => simp [Switch2_BulkUSB_Read]
    | succ n =>
      simp only [Switch2_BulkUSB_Read]
      split
      · simp [chunkOf_le_64]
      · split
        · simp [chunkOf_le_64]
        · intro c hc
          simp only [List.mem_cons] at hc
          rcases hc with rfl | hc
          · exact chunkOf_le_64 _
          · exact ih _ _ c hc

theorem winusb_read_trace_le (evts : List WinUSBReadEvt) (size total : Nat) :
    ∀ c ∈ (Switch2_BulkUSB_WinUSB_Read evts size total).2, c ≤ 64 := by
  induction evts generalizing size total with
  | nil => cases size <;> simp [Switch2_BulkUSB_WinUSB_Read]
  | cons e rest ih =>
    cases size with
    | zero => simp [Switch2_BulkUSB_WinUSB_Read]
    | succ n =>
      cases e with
      | eventFail => simp [Switch2_BulkUSB_WinUSB_Read]
      | pendingTimeout => simp [Switch2_BulkUSB_WinUSB_Read, chunkOf_le_64]
      | pendingError => simp [Switch2_BulkUSB_WinUSB_Read, chunkOf_le_64]
      | syncOk t =>
        simp only [Switch2_BulkUSB_WinUSB_Read]
        split
        · simp [chunkOf_le_64]
        · intro c hc
          simp only [List.mem_cons] at hc
          rcases hc with rfl | hc
          · exact chunkOf_le_64 _
          · exact ih _ _ c hc
      | pendingOk t =>
        simp only [Switch2_BulkUSB_WinUSB_Read]
        split
        · simp [chunkOf_le_64]
        · intro c hc
          simp only [List.mem_cons] at hc
          rcases hc with rfl | hc
          · exact chunkOf_le_64 _
          · exact ih _ _ c hc

theorem read_step_short (r : LibusbXfer) (rest : List LibusbXfer) (size total : Nat)
    (hs : 0 < size) (hres : 0 ≤ r.res) (ht : r.transferred < chunkOf size) :
    Switch2_BulkUSB_Read (r :: rest) size total =
      (some (Int.ofNat (total + r.transferred)), [chunkOf size]) := by
  obtain ⟨n, rfl⟩ : ∃ n, size = n + 1 := ⟨size - 1, by omega⟩
  simp only [Switch2_BulkUSB_Read]
  rw [if_neg (by omega), if_pos ht]

theorem read_step_error (r : LibusbXfer) (rest : List LibusbXfer) (size total : Nat)
    (hs : 0 < size) (hres : r.res < 0) :
    Switch2_BulkUSB_Read (r :: rest) size total = (some r.res, [chunkOf size]) := by
  obtain ⟨n, rfl⟩ : ∃ n, size = n + 1 := ⟨size - 1, by omega⟩
  simp only [Switch2_BulkUSB_Read]
  rw [if_pos hres]

theorem read_step_full (r : LibusbXfer) (rest : List LibusbXfer) (size total : Nat)
    (hs : 0 < size) (hsz : size < 2 ^ 32) (hres : 0 ≤ r.res)
    (ht : r.transferred = chunkOf size) :
    Switch2_BulkUSB_Read (r :: rest) size total =
      ((Switch2_BulkUSB_Read rest (size - r.transferred) (total + r.transferred)).1,
       chunkOf size ::
         (Switch2_BulkUSB_Read rest (size - r.transferred) (total + r.transferred)).2) := by
  have hle : r.transferred ≤ size := ht ▸ chunkOf_le_size size
  obtain ⟨n, rfl⟩ : ∃ n, size = n + 1 := ⟨size - 1, by omega⟩
  simp only [Switch2_BulkUSB_Read]
  rw [if_neg (by omega), if_neg (by omega), sub_wrap_eq _ _ hle hsz]

theorem winusb_step_short (t : Nat) (rest : List WinUSBReadEvt) (size total : Nat)
    (hs : 0 < size) (ht : t < chunkOf size) :
    Switch2_BulkUSB_WinUSB_Read (.syncOk t :: rest) size total =
      (some (Int.ofNat (total + t)), [chunkOf size]) := by
  obtain ⟨n, rfl⟩ : ∃ n, size = n + 1 := ⟨size - 1, by omega⟩
  simp only [Switch2_BulkUSB_WinUSB_Read]
  rw [if_pos ht]

theorem winusb_step_full (t : Nat) (rest : List WinUSBReadEvt) (size total : Nat)
    (hs : 0 < size) (hsz : size < 2 ^ 32) (ht : t = chunkOf size) :
    Switch2_BulkUSB_WinUSB_Read (.syncOk t :: rest) size total =
      ((Switch2_BulkUSB_WinUSB_Read rest (size - t) (total + t)).1,
       chunkOf size :: (Switch2_BulkUSB_WinUSB_Read rest (size - t) (total + t)).2) := by
  have hle : t ≤ size := ht ▸ chunkOf_le_size size
  obtain ⟨n, rfl⟩ : ∃ n, size = n + 1 := ⟨size - 1, by omega⟩
  simp only [Switch2_BulkUSB_WinUSB_Read]
  rw [if_neg (by omega), sub_wrap_eq _ _ hle hsz]

theorem winusb_step_timeout (rest : List WinUSBReadEvt) (size total : Nat)
    (hs : 0 < size) :
    Switch2_BulkUSB_WinUSB_Read (.pendingTimeout :: rest) size total =
      (some (if total > 0 then Int.ofNat total else -7), [chunkOf size]) := by
  obtain ⟨n, rfl⟩ : ∃ n, size = n + 1 := ⟨size - 1, by omega⟩
  simp only [Switch2_BulkUSB_WinUSB_Read]

/- ### Claim C2 -/

/-- Claim C2: on both backends `Read` requests at most 64 bytes per
iteration, accumulates the transferred counts (full-chunk iterations
recurse on `size - chunk` with `total + chunk`), returns as soon as an
iteration transfers fewer bytes than its chunk or the remaining size
reaches zero, and in particular a 256-byte read against responses of
64, 64, 64, 30 bytes returns 222 with exactly four transfer requests
(none after the 30-byte chunk). -/
theorem c2_read_chunking :
    (∀ (resps : List LibusbXfer) (size total : Nat),
      ∀ c ∈ (Switch2_BulkUSB_Read resps size total).2, c ≤ 64) ∧
    (∀ (evts : List WinUSBReadEvt) (size total : Nat),
      ∀ c ∈ (Switch2_BulkUSB_WinUSB_Read evts size total).2, c ≤ 64) ∧
    (∀ (r : LibusbXfer) (rest : List LibusbXfer) (size total : Nat),
      0 < size → 0 ≤ r.res → r.transferred < chunkOf size →
      Switch2_BulkUSB_Read (r :: rest) size total =
        (some (Int.ofNat (total + r.transferred)), [chunkOf size])) ∧
    (∀ (t : Nat) (rest : List WinUSBReadEvt) (size total : Nat),
      0 < size → t < chunkOf size →
      Switch2_BulkUSB_WinUSB_Read (.syncOk t :: rest) size total =
        (some (Int.ofNat (total + t)), [chunkOf size])) ∧
    (∀ (r : LibusbXfer) (rest : List LibusbXfer) (size total : Nat),
      0 < size → size < 2 ^ 32 → 0 ≤ r.res → r.transferred = chunkOf size →
      Switch2_BulkUSB_Read (r :: rest) size total =
        ((Switch2_BulkUSB_Read rest (size - r.transferred) (total + r.transferred)).1,
         chunkOf size ::
           (Switch2_BulkUSB_Read rest (size - r.transferred) (total + r.transferred)).2)) ∧
    (∀ (resps : List LibusbXfer) (total : Nat),
      Switch2_BulkUSB_Read resps 0 total = (some (Int.ofNat total), [])) ∧
    Switch2_BulkUSB_Read [⟨0, 64⟩, ⟨0, 64⟩, ⟨0, 64⟩, ⟨0, 30⟩] 256 0 =
      (some 222, [64, 64, 64, 64]) ∧
    Switch2_BulkUSB_WinUSB_Read [.syncOk 64, .syncOk 64, .syncOk 64, .syncOk 30] 256 0 =
      (some 222, [64, 64, 64, 64]) := by
  refine ⟨read_trace_le, winusb_read_trace_le, read_step_short, winusb_step_short,
    read_step_full, ?_, by decide, by decide⟩
  intro resps total
  cases resps <;> rfl

/-- Witness for C2: with 6 bytes remaining and 64 already accumulated,
a short 5-byte chunk ends the loop at 69 after one 6-byte request. -/
theorem c2_read_chunking_witness :
    Switch2_BulkUSB_Read [⟨0, 5⟩] 6 64 = (some 69, [6]) :=
  c2_read_chunking.2.2.1 ⟨0, 5⟩ [] 6 64 (by decide) (by decide) (by decide)

/- ### Claim C3 -/

/-- Counterexample to claim C3: on the libusb backend, a 128-byte read
whose first iteration transfers a full 64-byte chunk and whose second
iteration fails with `LIBUSB_ERROR_TIMEOUT` returns the error code
`-7`, not the accumulated total 64 that the claim requires. -/
theorem c3_counterexample :
    Switch2_BulkUSB_Read [⟨0, 64⟩, ⟨LIBUSB_ERROR_TIMEOUT, 0⟩] 128 0 =
      (some LIBUSB_ERROR_TIMEOUT, [64, 64]) ∧
    some LIBUSB_ERROR_TIMEOUT ≠ (some 64 : Option Int) := by
  constructor
  · decide
  · decide

/-- Claim C3 as amended: only the WinUSB backend preserves partial
progress — a timed-out WinUSB iteration returns the accumulated
positive total, or the timeout sentinel `-7` when nothing was
accumulated; the libusb backend returns the failing iteration's error
code even when earlier iterations accumulated bytes. -/
theorem c3_partial_progress :
    (∀ (rest : List WinUSBReadEvt) (size total : Nat), 0 < size → 0 < total →
      Switch2_BulkUSB_WinUSB_Read (.pendingTimeout :: rest) size total =
        (some (Int.ofNat total), [chunkOf size])) ∧
    (∀ (rest : List WinUSBReadEvt) (size : Nat), 0 < size →
      Switch2_BulkUSB_WinUSB_Read (.pendingTimeout :: rest) size 0 =
        (some (-7), [chunkOf size])) ∧
    (∀ (r : LibusbXfer) (rest : List LibusbXfer) (size total : Nat),
      0 < size → r.res < 0 →
      Switch2_BulkUSB_Read (r :: rest) size total = (some r.res, [chunkOf size])) ∧
    Switch2_BulkUSB_WinUSB_Read [.syncOk 64, .pendingTimeout] 128 0 =
      (some 64, [64, 64]) ∧
    Switch2_BulkUSB_WinUSB_Read [.pendingTimeout] 128 0 = (some (-7), [64]) := by
  refine ⟨?_, ?_, read_step_error, by decide, by decide⟩
  · intro rest size total hs ht
    rw [winusb_step_timeout rest size total hs, if_pos ht]
  · intro rest size hs
    rw [winusb_step_timeout rest size 0 hs]
    rfl

/-- Witness for C3 (amended): a timed-out second iteration after a
full 64-byte first chunk returns 64 on WinUSB, and the libusb loop
returns the raw error code `-9` on a failing first iteration. -/
theorem c3_partial_progress_witness :
    Switch2_BulkUSB_WinUSB_Read [.pendingTimeout] 100 64 = (some 64, [64]) ∧
    Switch2_BulkUSB_Read [⟨-9, 0⟩] 100 7 = (some (-9), [64]) :=
  ⟨c3_partial_progress.1 [] 100 64 (by decide) (by decide),
   c3_partial_progress.2.2.1 ⟨-9, 0⟩ [] 100 7 (by decide) (by decide)⟩

/- ### Claim C9 -/

/-- Claim C9: both read loops terminate: with per-iteration transfer
results that all succeed and never exceed the requested chunk, the
loop finishes within `size` iterations (so `size` responses always
suffice — each iteration either returns, breaks on a short chunk, or
reduces the remaining size by a full chunk of at least 1 byte). -/
theorem c9_read_terminates :
    (∀ (resps : List LibusbXfer) (size total : Nat),
      size < 2 ^ 32 → size ≤ resps.length → okChunks size resps = true →
      (Switch2_BulkUSB_Read resps size total).1 ≠ none) ∧
    (∀ (evts : List WinUSBReadEvt) (size total : Nat),
      size < 2 ^ 32 → size ≤ evts.length → okEvts size evts = true →
      (Switch2_BulkUSB_WinUSB_Read evts size total).1 ≠ none) := by
  constructor
  · intro resps
    induction resps with
    | nil =>
      intro size total hsz hlen _hok
      have : size = 0 := by simpa using hlen
      subst this
      simp [Switch2_BulkUSB_Read]
    | cons r rest ih =>
      intro size total hsz hlen hok
      cases size with
      | zero => simp [Switch2_BulkUSB_Read]
      | succ n =>
        simp only [okChunks, Bool.and_eq_true, decide_eq_true_eq] at hok
        obtain ⟨⟨hres, ht⟩, hrest⟩ := hok
        by_cases hshort : r.transferred < chunkOf (n + 1)
        · rw [read_step_short r rest (n + 1) total (by omega) hres hshort]
          simp
        · have hteq : r.transferred = chunkOf (n + 1) := by omega
          rw [read_step_full r rest (n + 1) total (by omega) hsz hres hteq]
          have hle : r.transferred ≤ n + 1 := hteq ▸ chunkOf_le_size (n + 1)
          have hpos : 0 < chunkOf (n + 1) := chunkOf_pos (n + 1) (by omega)
          have hrest' : okChunks (n + 1 - r.transferred) rest = true := by
            rwa [sub_wrap_eq _ _ hle hsz] at hrest
          exact ih (n + 1 - r.transferred) (total + r.transferred) (by omega)
            (by simp at hlen; omega) hrest'
  · intro evts
    induction evts with
    | nil =>
      intro size total hsz hlen _hok
      have : size = 0 := by simpa using hlen
      subst this
      simp [Switch2_BulkUSB_WinUSB_Read]
    | cons e rest ih =>
      intro size total hsz hlen hok
      cases size with
      | zero => simp [Switch2_BulkUSB_WinUSB_Read]
      | succ n =>
        cases e with
        | eventFail => simp [okEvts] at hok
        | pendingTimeout => simp [okEvts] at hok
        | pendingError => simp [okEvts] at hok
        | syncOk t =>
          simp only [okEvts, Bool.and_eq_true, decide_eq_true_eq] at hok
          obtain ⟨ht, hrest⟩ := hok
          by_cases hshort : t < chunkOf (n + 1)
          · rw [winusb_step_short t rest (n + 1) total (by omega) hshort]
            simp
          · have hteq : t = chunkOf (n + 1) := by omega
            rw [winusb_step_full t rest (n + 1) total (by omega) hsz hteq]
            have hle : t ≤ n + 1 := hteq ▸ chunkOf_le_size (n + 1)
            have hpos : 0 < chunkOf (n + 1) := chunkOf_pos (n + 1) (by omega)
            have hrest' : okEvts (n + 1 - t) rest = true := by
              rwa [sub_wrap_eq _ _ hle hsz] at hrest
            exact ih (n + 1 - t) (total + t) (by omega) (by simp at hlen; omega) hrest'
        | pendingOk t =>
          simp only [okEvts, Bool.and_eq_true, decide_eq_true_eq] at hok
          obtain ⟨ht, hrest⟩ := hok
          by_cases hshort : t < chunkOf (n + 1)
          · obtain ⟨m, hm⟩ : ∃ m, n + 1 = m + 1 := ⟨n, rfl⟩
            rw [hm]
            simp only [Switch2_BulkUSB_WinUSB_Read]
            rw [if_pos (hm ▸ hshort)]
            simp
          · have hteq : t = chunkOf (n + 1) := by omega
            have hle : t ≤ n + 1 := hteq ▸ chunkOf_le_size (n + 1)
            have hpos : 0 < chunkOf (n + 1) := chunkOf_pos (n + 1) (by omega)
            simp only [Switch2_BulkUSB_WinUSB_Read]
            rw [if_neg (by omega), sub_wrap_eq _ _ hle hsz]
            have hrest' : okEvts (n + 1 - t) rest = true := by
              rwa [sub_wrap_eq _ _ hle hsz] at hrest
            exact ih (n + 1 - t) (total + t) (by omega) (by simp at hlen; omega) hrest'

/-- Witness for C9: one full 1-byte chunk on a 1-byte read finishes
(and similarly on the WinUSB loop). -/
theorem c9_read_terminates_witness :
    (Switch2_BulkUSB_Read [⟨0, 1⟩] 1 0).1 ≠ none ∧
    (Switch2_BulkUSB_WinUSB_Read [.syncOk 1] 1 0).1 ≠ none :=
  ⟨c9_read_terminates.1 [⟨0, 1⟩] 1 0 (by decide) (by decide) (by decide),
   c9_read_terminates.2 [.syncOk 1] 1 0 (by decide) (by decide) (by decide)⟩

/- ### Claim C10 -/

/-- Claim C10: a read of size 0 returns 0 on both backends without
issuing any bulk transfer (empty request trace, so the caller's
buffer is never written). -/
theorem c10_read_zero_size :
    (∀ resps : List LibusbXfer, Switch2_BulkUSB_Read resps 0 0 = (some 0, [])) ∧
    (∀ evts : List WinUSBReadEvt, Switch2_BulkUSB_WinUSB_Read evts 0 0 = (some 0, [])) := by
  constructor
  · intro resps; cases resps <;> rfl
  · intro evts; cases evts <;> rfl

/- ### Claim C4 -/

/-- Claim C4: a write that completes within the timeout returns its
transferred count `N`; a timed-out write returns the timeout sentinel
`-7`, distinct from the generic-failure sentinel `-1`, on both
backends, and on the WinUSB backend the timed-out write aborts the
out pipe before returning. -/
theorem c4_write_result :
    (∀ t : Nat, Switch2_BulkUSB_Write 0 (Int.ofNat t) = Int.ofNat t) ∧
    (∀ res t : Int, res < 0 → Switch2_BulkUSB_Write res t = res) ∧
    Switch2_BulkUSB_Write LIBUSB_ERROR_TIMEOUT 0 = LIBUSB_ERROR_TIMEOUT ∧
    LIBUSB_ERROR_TIMEOUT ≠ LIBUSB_ERROR_IO ∧
    (∀ t : Nat,
      Switch2_BulkUSB_WinUSB_Write (.syncOk t) = ⟨Int.ofNat t, false⟩ ∧
      Switch2_BulkUSB_WinUSB_Write (.pendingOk t) = ⟨Int.ofNat t, false⟩) ∧
    Switch2_BulkUSB_WinUSB_Write .pendingTimeout = ⟨-7, true⟩ ∧
    Switch2_BulkUSB_WinUSB_Write .pendingError = ⟨-1, false⟩ ∧
    (-7 : Int) ≠ -1 := by
  refine ⟨fun t => rfl, ?_, by decide, by decide, fun t => ⟨rfl, rfl⟩, rfl, rfl, by decide⟩
  intro res t hres
  unfold Switch2_BulkUSB_Write
  rw [if_pos hres]

/-- Witness for C4: a successful 5-byte write returns 5; a libusb
transfer error `-3` is propagated unchanged. -/
theorem c4_write_result_witness :
    Switch2_BulkUSB_Write 0 (Int.ofNat 5) = Int.ofNat 5 ∧
    Switch2_BulkUSB_Write (-3) 5 = -3 :=
  ⟨c4_write_result.1 5, c4_write_result.2.1 (-3) 5 (by decide)⟩

/- ### Lemmas about Close -/

theorem close_state (st : BulkCtx) :
    (Switch2_BulkUSB_Close st).1 =
      { st with
        winusb_handle := st.winusb_handle && !st.use_winusb,
        winusb_file_handle := st.winusb_file_handle && !st.use_winusb,
        use_winusb := false,
        interface_claimed := st.interface_claimed && !st.libusb,
        device_handle := st.device_handle && !(st.owns_device_handle && st.libusb),
        libusb_ctx := st.libusb_ctx && !st.libusb,
        libusb := false } := by
  rcases st with ⟨l, d, o, c, ic, i_n, o_e, i_e, wf, wh, wo, wi, uw⟩
  cases l <;> cases d <;> cases o <;> cases c <;> cases ic <;> cases wf <;> cases wh <;>
    cases uw <;>
    simp [Switch2_BulkUSB_Close, Switch2_BulkUSB_CloseWinUSB]

theorem close_trace (st : BulkCtx) :
    (Switch2_BulkUSB_Close st).2 =
      (if st.use_winusb && st.winusb_handle then [CloseAct.winusbFree] else []) ++
      (if st.use_winusb && st.winusb_file_handle then [CloseAct.winusbCloseFile] else []) ++
      (if st.interface_claimed && st.libusb then [CloseAct.releaseInterface] else []) ++
      (if st.owns_device_handle && st.device_handle && st.libusb
        then [CloseAct.closeDevice] else []) ++
      (if st.libusb_ctx && st.libusb then [CloseAct.exitCtx] else []) ++
      (if st.libusb then [CloseAct.quitLibUSB] else []) := by
  rcases st with ⟨l, d, o, c, ic, i_n, o_e, i_e, wf, wh, wo, wi, uw⟩
  cases l <;> cases d <;> cases o <;> cases c <;> cases ic <;> cases wf <;> cases wh <;>
    cases uw <;>
    simp [Switch2_BulkUSB_Close, Switch2_BulkUSB_CloseWinUSB]

/-- Claim C7: `Close` releases in the fixed order WinUSB resources,
interface, device handle, private context, libusb runtime (the trace
is always a sublist of that canonical sequence); the interface is
released only if `interface_claimed`, the device handle only if
`owns_device_handle`, the private context only if one is recorded, the
runtime reference exactly when one is held, WinUSB resources only when
that backend is active; and a claimed interface is released exactly
once across repeated `Close` calls. -/
theorem ite_singleton_sublist {α : Type} (c : Prop) [Decidable c] (y : α) :
    (if c then [y] else []).Sublist [y] := by
  split <;> simp

theorem mem_ite_singleton {α : Type} (c : Prop) [Decidable c] (x y : α) :
    x ∈ (if c then [y] else []) ↔ (c ∧ x = y) := by
  split <;> simp_all

theorem count_ite_singleton {α : Type} [DecidableEq α] (c : Prop) [Decidable c] (x y : α) :
    (if c then [y] else []).count x = if c ∧ x = y then 1 else 0 := by
  rcases Decidable.em c with hc | hc <;> rcases Decidable.em (x = y) with he | he <;>
    simp_all [List.count_cons]

theorem c7_close_release_order (st : BulkCtx)
    (hcl : st.interface_claimed = true → st.libusb = true) :
    (Switch2_BulkUSB_Close st).2.Sublist
      [CloseAct.winusbFree, CloseAct.winusbCloseFile, CloseAct.releaseInterface,
       CloseAct.closeDevice, CloseAct.exitCtx, CloseAct.quitLibUSB] ∧
    (CloseAct.releaseInterface ∈ (Switch2_BulkUSB_Close st).2 →
      st.interface_claimed = true) ∧
    (CloseAct.closeDevice ∈ (Switch2_BulkUSB_Close st).2 →
      st.owns_device_handle = true) ∧
    (CloseAct.exitCtx ∈ (Switch2_BulkUSB_Close st).2 → st.libusb_ctx = true) ∧
    (CloseAct.quitLibUSB ∈ (Switch2_BulkUSB_Close st).2 ↔ st.libusb = true) ∧
    (CloseAct.winusbFree ∈ (Switch2_BulkUSB_Close st).2 → st.use_winusb = true) ∧
    (st.interface_claimed = true →
      ((Switch2_BulkUSB_Close st).2 ++
        (Switch2_BulkUSB_Close (Switch2_BulkUSB_Close st).1).2).count
          CloseAct.releaseInterface = 1) := by
  refine ⟨?_, ?_, ?_, ?_, ?_, ?_, ?_⟩
  · rw [close_trace]
    exact (((((ite_singleton_sublist _ _).append (ite_singleton_sublist _ _)).append
      (ite_singleton_sublist _ _)).append (ite_singleton_sublist _ _)).append
      (ite_singleton_sublist _ _)).append (ite_singleton_sublist _ _)
  · intro hmem
    rw [close_trace] at hmem
    simp only [List.mem_append, mem_ite_singleton] at hmem
    simp at hmem
    exact hmem.1
  · intro hmem
    rw [close_trace] at hmem
    simp only [List.mem_append, mem_ite_singleton] at hmem
    simp at hmem
    exact hmem.1.1
  · intro hmem
    rw [close_trace] at hmem
    simp only [List.mem_append, mem_ite_singleton] at hmem
    simp at hmem
    exact hmem.1
  · rw [close_trace]
    simp only [List.mem_append, mem_ite_singleton]
    simp
  · intro hmem
    rw [close_trace] at hmem
    simp only [List.mem_append, mem_ite_singleton] at hmem
    simp at hmem
    exact hmem.1
  · intro hic
    have hl := hcl hic
    rw [List.count_append, close_trace, close_state, close_trace]
    simp [List.count_append, count_ite_singleton, hic, hl]

/-- Witness for C7: closing a fully opened generic-path context
releases interface, device, private context and runtime in order, and
the interface exactly once across two `Close` calls. -/
theorem c7_close_release_order_witness :
    CloseAct.quitLibUSB ∈ (Switch2_BulkUSB_Close openedCtx).2 ∧
    ((Switch2_BulkUSB_Close openedCtx).2 ++
      (Switch2_BulkUSB_Close (Switch2_BulkUSB_Close openedCtx).1).2).count
        CloseAct.releaseInterface = 1 :=
  ⟨(c7_close_release_order openedCtx (fun _ => rfl)).2.2.2.2.1.mpr rfl,
   (c7_close_release_order openedCtx (fun _ => rfl)).2.2.2.2.2.2 rfl⟩

/-- Claim C8: `Close` is idempotent: a second `Close` immediately
after a first performs no release operation and leaves the context
unchanged, and `Close` on a never-opened (zeroed) context performs no
release operation and does not change it. -/
theorem c8_close_idempotent :
    (∀ st : BulkCtx,
      Switch2_BulkUSB_Close (Switch2_BulkUSB_Close st).1 =
        ((Switch2_BulkUSB_Close st).1, [])) ∧
    Switch2_BulkUSB_Close zeroCtx = (zeroCtx, []) := by
  constructor
  · intro st
    rcases st with ⟨l, d, o, c, ic, i_n, o_e, i_e, wf, wh, wo, wi, uw⟩
    cases l <;> cases d <;> cases o <;> cases c <;> cases ic <;> cases wf <;> cases wh <;>
      cases uw <;>
      simp [Switch2_BulkUSB_Close, Switch2_BulkUSB_CloseWinUSB]
  · rfl

/- ### Claims C5 and C6 -/

/-- Counterexample to claim C5: failure paths of
`Switch2_BulkUSB_Open` past handle acquisition do not restore the
pre-open inert state.  On an endpoint-discovery failure after opening
a private libusb connection the returned context still records the
libusb runtime reference, the device handle, its ownership flag and
the private libusb context; on an interface-claim failure it still
records the libusb runtime reference — while the zeroed pre-open
context records none of them. -/
theorem c5_counterexample :
    ((Switch2_BulkUSB_Open zeroCtx c5EnvOwn).1 = false ∧
      (Switch2_BulkUSB_Open zeroCtx c5EnvOwn).2.1.libusb = true ∧
      (Switch2_BulkUSB_Open zeroCtx c5EnvOwn).2.1.device_handle = true ∧
      (Switch2_BulkUSB_Open zeroCtx c5EnvOwn).2.1.owns_device_handle = true ∧
      (Switch2_BulkUSB_Open zeroCtx c5EnvOwn).2.1.libusb_ctx = true) ∧
    ((Switch2_BulkUSB_Open zeroCtx c5EnvClaim).1 = false ∧
      (Switch2_BulkUSB_Open zeroCtx c5EnvClaim).2.1.libusb = true ∧
      (Switch2_BulkUSB_Open zeroCtx c5EnvClaim).2.1.device_handle = true) ∧
    zeroCtx.libusb = false ∧ zeroCtx.device_handle = false ∧
    zeroCtx.owns_device_handle = false ∧ zeroCtx.libusb_ctx = false := by
  refine ⟨⟨by decide, by decide, by decide, by decide, by decide⟩,
    ⟨by decide, by decide, by decide⟩, by decide, by decide, by decide, by decide⟩

/-- Claim C5 as amended: every failure path of `Open` leaves no
backend marked active (`interface_claimed` and `use_winusb` stay
false), and the libusb-initialization-failure and
handle-acquisition-failure paths leave the context exactly in its
pre-open zeroed state; but once a device handle has been acquired
(shared or privately opened), any subsequent failure — endpoint
discovery or interface claim — keeps the libusb runtime reference and
the device handle recorded in the context, and, when the transport
opened its own libusb connection, also the ownership flag and the
private libusb context (for a later `Close` to release). -/
theorem c5_open_failure_state :
    (∀ env : OpenEnv, (Switch2_BulkUSB_Open zeroCtx env).1 = false →
      (Switch2_BulkUSB_Open zeroCtx env).2.1.interface_claimed = false ∧
      (Switch2_BulkUSB_Open zeroCtx env).2.1.use_winusb = false) ∧
    (∀ env : OpenEnv, env.winusb = none → env.initLibUSBOk = false →
      Switch2_BulkUSB_Open zeroCtx env = (false, zeroCtx, [])) ∧
    (∀ env : OpenEnv, env.winusb = none → env.initLibUSBOk = true →
      env.sharedHandle = false → (env.usbCtxInitOk && env.openMatchOk) = false →
      Switch2_BulkUSB_Open zeroCtx env = (false, zeroCtx, [])) ∧
    (∀ env : OpenEnv, env.winusb = none → env.initLibUSBOk = true →
      (env.sharedHandle = true ∨ (env.usbCtxInitOk && env.openMatchOk) = true) →
      (Switch2_BulkUSB_Open zeroCtx env).1 = false →
      (Switch2_BulkUSB_Open zeroCtx env).2.1.libusb = true ∧
      (Switch2_BulkUSB_Open zeroCtx env).2.1.device_handle = true) ∧
    (∀ env : OpenEnv, env.winusb = none → env.initLibUSBOk = true →
      env.sharedHandle = false → (env.usbCtxInitOk && env.openMatchOk) = true →
      (Switch2_BulkUSB_Open zeroCtx env).1 = false →
      (Switch2_BulkUSB_Open zeroCtx env).2.1.owns_device_handle = true ∧
      (Switch2_BulkUSB_Open zeroCtx env).2.1.libusb_ctx = true) := by
  refine ⟨?_, ?_, ?_, ?_, ?_⟩
  · intro env hfail
    cases hw : env.winusb with
    | some p => simp [Switch2_BulkUSB_Open, hw] at hfail
    | none =>
      simp only [Switch2_BulkUSB_Open, hw] at hfail ⊢
      by_cases hinit : env.initLibUSBOk = true
      · simp only [hinit, if_true] at hfail ⊢
        split_ifs at hfail ⊢ <;> simp_all [zeroCtx]
      · simp only [Bool.not_eq_true] at hinit
        simp [hinit, zeroCtx]
  · intro env hw hinit
    simp [Switch2_BulkUSB_Open, hw, hinit]
  · intro env hw hinit hsh hno
    simp only [Switch2_BulkUSB_Open, hw, hinit, hsh, hno, if_true]
    simp [zeroCtx, hsh, hno]
  · intro env hw hinit hacq hfail
    simp only [Switch2_BulkUSB_Open, hw, hinit, if_true] at hfail ⊢
    by_cases hsh : env.sharedHandle = true
    · simp only [hsh] at hfail ⊢
      split_ifs at hfail ⊢ <;> simp_all [zeroCtx]
    · simp only [Bool.not_eq_true] at hsh
      have hpriv : (env.usbCtxInitOk && env.openMatchOk) = true := by
        rcases hacq with h | h
        · exact absurd h (by simp [hsh])
        · exact h
      simp only [hsh, hpriv] at hfail ⊢
      split_ifs at hfail ⊢ <;> simp_all [zeroCtx]
  · intro env hw hinit hsh hpriv hfail
    simp only [Switch2_BulkUSB_Open, hw, hinit, hsh, hpriv, if_true] at hfail ⊢
    split_ifs at hfail ⊢ <;> simp_all [zeroCtx]

/-- Witness for C5 (amended): the shared-handle discovery-failure
environment fails with no backend active but with the libusb
reference and device handle retained; an initialization-failure
environment returns the context untouched; and the private-connection
discovery-failure environment also retains the ownership flag and the
private context. -/
theorem c5_open_failure_state_witness :
    ((Switch2_BulkUSB_Open zeroCtx c5Env).2.1.interface_claimed = false ∧
      (Switch2_BulkUSB_Open zeroCtx c5Env).2.1.use_winusb = false) ∧
    Switch2_BulkUSB_Open zeroCtx ⟨none, false, false, false, false, false, ⟨[]⟩, 0⟩ =
      (false, zeroCtx, []) ∧
    ((Switch2_BulkUSB_Open zeroCtx c5Env).2.1.libusb = true ∧
      (Switch2_BulkUSB_Open zeroCtx c5Env).2.1.device_handle = true) ∧
    ((Switch2_BulkUSB_Open zeroCtx c5EnvOwn).2.1.owns_device_handle = true ∧
      (Switch2_BulkUSB_Open zeroCtx c5EnvOwn).2.1.libusb_ctx = true) :=
  ⟨c5_open_failure_state.1 c5Env (by decide),
   c5_open_failure_state.2.1 ⟨none, false, false, false, false, false, ⟨[]⟩, 0⟩ rfl rfl,
   c5_open_failure_state.2.2.2.1 c5Env rfl rfl (Or.inl rfl) (by decide),
   c5_open_failure_state.2.2.2.2 c5EnvOwn rfl rfl rfl rfl (by decide)⟩

/-- Discovery fails on every descriptor whose interface 1 lacks a bulk
endpoint of one of the two directions, whatever the incoming pointer
values and whether or not the descriptor fetch itself succeeded. -/
theorem findEndpoints_miss (gc : Bool) (config : ConfigDescriptor) (i o e : Nat)
    (hmiss : (∀ ep ∈ bulkEndpoints config,
        ¬(ep.bEndpointAddress &&& LIBUSB_ENDPOINT_DIR_MASK = LIBUSB_ENDPOINT_OUT)) ∨
      (∀ ep ∈ bulkEndpoints config,
        ¬(ep.bEndpointAddress &&& LIBUSB_ENDPOINT_DIR_MASK = LIBUSB_ENDPOINT_IN))) :
    (Switch2_BulkUSB_FindEndpoints gc config i o e).1 = false := by
  cases gc with
  | false => rfl
  | true =>
    show (scanInterfaces ⟨i, o, e, 0⟩ config.iface).1 = false
    rw [scanInterfaces_bulk]
    rcases hmiss with hno | hno
    · exact scanEndpoints_no_out _ _ hno (Or.inl rfl)
    · exact scanEndpoints_no_in _ _ hno (Or.inl rfl)

/-- Claim C6: for every device whose configuration descriptor lacks
interface 1 or lacks a bulk endpoint of either direction on it,
endpoint discovery fails and the generic-path `Open` returns failure
without calling `claim_interface` and without attempting any bulk
transfer (the WinUSB flush being the only transfer-issuing step of
`Open`), leaving `interface_claimed` false. -/
theorem c6_discovery_failure_no_claim (bulk : BulkCtx) (env : OpenEnv)
    (hw : env.winusb = none) (hic : bulk.interface_claimed = false)
    (hmiss : (∀ ep ∈ bulkEndpoints env.config,
        ¬(ep.bEndpointAddress &&& LIBUSB_ENDPOINT_DIR_MASK = LIBUSB_ENDPOINT_OUT)) ∨
      (∀ ep ∈ bulkEndpoints env.config,
        ¬(ep.bEndpointAddress &&& LIBUSB_ENDPOINT_DIR_MASK = LIBUSB_ENDPOINT_IN))) :
    (Switch2_BulkUSB_Open bulk env).1 = false ∧
    (Switch2_BulkUSB_Open bulk env).2.1.interface_claimed = false ∧
    OpenAct.claimInterface ∉ (Switch2_BulkUSB_Open bulk env).2.2 ∧
    OpenAct.flushWinUSB ∉ (Switch2_BulkUSB_Open bulk env).2.2 := by
  have hfe : ∀ i o e, (Switch2_BulkUSB_FindEndpoints env.getConfigOk env.config i o e).1
      = false := fun i o e => findEndpoints_miss _ _ i o e hmiss
  simp only [Switch2_BulkUSB_Open, hw]
  by_cases hinit : env.initLibUSBOk = true
  · simp only [hinit, if_true]
    split_ifs <;> simp_all
  · simp only [Bool.not_eq_true] at hinit
    simp [hinit, hic]

/-- Witness for C6 at `c6Env`. -/
theorem c6_discovery_failure_no_claim_witness :
    (Switch2_BulkUSB_Open zeroCtx c6Env).1 = false ∧
    (Switch2_BulkUSB_Open zeroCtx c6Env).2.1.interface_claimed = false ∧
    OpenAct.claimInterface ∉ (Switch2_BulkUSB_Open zeroCtx c6Env).2.2 ∧
    OpenAct.flushWinUSB ∉ (Switch2_BulkUSB_Open zeroCtx c6Env).2.2 :=
  c6_discovery_failure_no_claim zeroCtx c6Env rfl rfl (Or.inr (by decide))
